import Mathlib

/-!
Verification of the CPO note-generation workflow.

Shallow embedding of the Python sources:
  * `validate_cpo_with_groupname.py` — the accrual loop (`main`), dedup,
    generation with retry, validation, `random_date`, `post_note`;
  * `validate_cpo.py` — window computation, ledger, duplicate flagging;
  * `generate_cpo.py` — ledger variant with guarded timestamp parse,
    `find_485_cert_order`, `generate_notes`.

Instants (Python `datetime` values) are modelled as integers: the code only
compares them, takes `max`/`min`, subtracts (`total_seconds`) and adds
offsets, all of which the integer order models exactly.  External parsers
(`datetime.fromisoformat`) are passed in as `String → Option Int`
parameters, `none` standing for `ValueError`.  Fallible Python code is
embedded in `Except String`.
-/

/-- A candidate care-coordination note: `(title, text)`. -/
abbrev Note := String × String

/-- Python `s.lower()`, character-wise on the underlying character list
(extensionally `String.toLower`, but written over the data list so that it
evaluates inside the kernel). -/
def pyLower (s : String) : String := ⟨s.data.map Char.toLower⟩

/-- Python `s.startswith(pre)`. -/
def pyStartsWith (s pre : String) : Bool := pre.data.isPrefixOf s.data

/-- Python `s.strip()`: drop whitespace from both ends. -/
def pyStrip (s : String) : String :=
  ⟨((s.data.dropWhile Char.isWhitespace).reverse.dropWhile Char.isWhitespace).reverse⟩

/-- Substring occurrence on character lists (helper for Python `in`). -/
def containsSub : List Char → List Char → Bool
  | n, [] => n.isEmpty
  | n, c :: rest => n.isPrefixOf (c :: rest) || containsSub n rest

/-- The test `containsSub` decides the infix relation. -/
theorem containsSub_iff : ∀ (n h : List Char), containsSub n h = true ↔ n <:+: h := by
  intro n h
  induction h with
  | nil => simp [containsSub, List.isEmpty_iff, List.infix_nil]
  | cons c rest ih =>
    simp [containsSub, List.isPrefixOf_iff_prefix, ih, List.infix_cons_iff]

/-- Python `needle in hay` — substring test. -/
def pyIn (needle hay : String) : Bool :=
  containsSub needle.data hay.data

/-- Token accumulator for Python `s.split()`: split on whitespace runs,
dropping empty pieces (`acc` holds the current token, reversed). -/
def wsTokensGo : List Char → List Char → List (List Char)
  | acc, [] => if acc.isEmpty then [] else [acc.reverse]
  | acc, c :: rest =>
    if c.isWhitespace then
      if acc.isEmpty then wsTokensGo [] rest
      else acc.reverse :: wsTokensGo [] rest
    else wsTokensGo (c :: acc) rest

/-- Python `s.split()` — whitespace tokens of `s`. -/
def pysplitWs (s : String) : List String :=
  (wsTokensGo [] s.data).map String.mk

/-- Python `s.split(sep)` for a single-character separator (used for
`splitlines` — modelled as splitting on `'\n'` — and `split(":")`). -/
def splitCharGo (sep : Char) : List Char → List Char → List (List Char)
  | acc, [] => [acc.reverse]
  | acc, c :: rest =>
    if c = sep then acc.reverse :: splitCharGo sep [] rest
    else splitCharGo sep (c :: acc) rest

/-- Python `s.split(sep)` on strings, single-character separator. -/
def splitChar (sep : Char) (s : String) : List String :=
  (splitCharGo sep [] s.data).map String.mk

/-- Python `s.split("\n\n")`: split on the two-character separator,
leftmost-first. -/
def splitNNGo : List Char → List Char → List (List Char)
  | acc, '\n' :: '\n' :: rest => acc.reverse :: splitNNGo [] rest
  | acc, c :: rest => splitNNGo (c :: acc) rest
  | acc, [] => [acc.reverse]

/-- Python `s.split("\n\n")` on strings. -/
def splitNN (s : String) : List String :=
  (splitNNGo [] s.data).map String.mk

/-- Python `s.rstrip("Z")`. -/
def rstripZ (s : String) : String :=
  ⟨(s.data.reverse.dropWhile (fun c => c = 'Z')).reverse⟩

/-- Key `kt = title.lower()` — the dedup title key of
`validate_cpo_with_groupname.py` (lowercase only; whitespace untouched). -/
def titleKey (t : String) : String := pyLower t

/-- Key `ks = " ".join(text.split()[:10]).lower()` — the dedup snippet key:
lowercase join of the first 10 whitespace tokens. -/
def snipKey (tx : String) : String :=
  pyLower (String.intercalate " " ((pysplitWs tx).take 10))

/-- The two identity sets `seen_titles` / `seen_snips` (modelled as lists;
only membership is used). -/
structure DedupState where
  seenTitles : List String
  seenSnips  : List String
deriving Repr, DecidableEq

/-- Test `kt in seen_titles or ks in seen_snips` — the dedup rejection test. -/
def isDuplicate (c : Note) (st : DedupState) : Prop :=
  titleKey c.1 ∈ st.seenTitles ∨ snipKey c.2 ∈ st.seenSnips

instance (c : Note) (st : DedupState) : Decidable (isDuplicate c st) := by
  unfold isDuplicate; exact inferInstance

/-- Update `seen_titles.add(kt); seen_snips.add(ks)` — insert both keys. -/
def recordNote (c : Note) (st : DedupState) : DedupState :=
  ⟨titleKey c.1 :: st.seenTitles, snipKey c.2 :: st.seenSnips⟩

/-- The dedup pass of the accrual loop (`validate_cpo_with_groupname.py`,
`main`): walk the generated batch, skip a candidate whose title key or
snippet key was already seen, otherwise add both keys and keep it. -/
def dedupe : List Note → DedupState → List Note × DedupState
  | [], st => ([], st)
  | c :: rest, st =>
    if isDuplicate c st then
      dedupe rest st
    else
      let out := dedupe rest (recordNote c st)
      (c :: out.1, out.2)

/-- Count `needed = math.ceil((30 - existing - created*3)/3)`.  Matches the Python
ceiling on the reachable domain `existing + created*3 < 30` (where the
numerator is positive); `Int.toNat` clamps the unreachable negative case. -/
def neededNotes (existing : Int) (created : Nat) : Nat :=
  ((30 - (existing + (created : Int) * 3)).toNat + 2) / 3

/-- The accepted sublist of one iteration: validate `unique[:needed]` and
keep those whose verdict starts with `"VALID"`. -/
def acceptedOf (val : Note → String) (needed : Nat) (uniq : List Note) : List Note :=
  (uniq.take needed).filter (fun c => pyStartsWith (val c) "VALID")

/-- Outcome of one loop-body pass, after the threshold check. -/
inductive IterOut where
  | genEmpty
  | noUnique
  | progress (acc : List Note) (st2 : DedupState)
deriving Repr, DecidableEq

/-- One body pass of the accrual loop: empty generation ⇒ abort; empty dedup
survivor list ⇒ abort; otherwise validate up to `needed` survivors. -/
def iterStep (val : Note → String) (needed : Nat) (g : List Note) (st : DedupState) :
    IterOut :=
  if g.isEmpty then .genEmpty
  else
    let d := dedupe g st
    if d.1.isEmpty then .noUnique
    else .progress (acceptedOf val needed d.1) d.2

/-- Terminal outcomes of the accrual loop. -/
inductive LoopExit where
  | done
  | exhaustedGen
  | exhaustedNoUnique
deriving Repr, DecidableEq

/-- The accrual loop of `validate_cpo_with_groupname.main`
(`while existing + created*3 < 30`), run with fuel.  `gen k b` is the
generator backend's response at iteration `k` when asked for `b` notes;
`val c` is the validator's verdict string for candidate `c`.  Returns
`none` when fuel runs out before a terminal state. -/
def runLoop (gen : Nat → Nat → List Note) (val : Note → String) (existing : Int) :
    Nat → Nat → Nat → DedupState → Option (Nat × LoopExit)
  | 0, _, _, _ => none
  | fuel + 1, k, created, st =>
    if 30 ≤ existing + (created : Int) * 3 then some (created, .done)
    else
      let needed := neededNotes existing created
      let batch := min 3 needed
      match iterStep val needed (gen k batch) st with
      | .genEmpty => some (created, .exhaustedGen)
      | .noUnique => some (created, .exhaustedNoUnique)
      | .progress acc st2 =>
        runLoop gen val existing fuel (k + 1) (created + acc.length) st2

/-- Instrumented view of `runLoop`: the per-iteration accepted counts of
every iteration that completes its body and loops back for the threshold
check (exiting iterations contribute their count as the final entry). -/
def runTrace (gen : Nat → Nat → List Note) (val : Note → String) (existing : Int) :
    Nat → Nat → Nat → DedupState → List Nat
  | 0, _, _, _ => []
  | fuel + 1, k, created, st =>
    if 30 ≤ existing + (created : Int) * 3 then []
    else
      let needed := neededNotes existing created
      let batch := min 3 needed
      match iterStep val needed (gen k batch) st with
      | .genEmpty => []
      | .noUnique => []
      | .progress acc st2 =>
        acc.length :: runTrace gen val existing fuel (k + 1) (created + acc.length) st2

/-! ### Note generation (`generate_notes`, both variants) -/

/-- A generative-backend response: a completion text, a timeout
(`APITimeoutError`), or another backend failure (`OpenAIError`). -/
inductive GenResp where
  | ok (raw : String)
  | timeout
  | apiErr (msg : String)
deriving Repr

/-- Function `build_gen_prompt(icd, phys, cnt)` of `validate_cpo_with_groupname.py`:
the single generation prompt, embedding at most the first 5 diagnoses. -/
def build_gen_prompt (icd : List String) (phys : String) (cnt : Nat) : String :=
  "Patient Diagnoses (do NOT print numeric ICD-10 codes): " ++
    String.intercalate ", " (icd.take 5) ++ "\n" ++
  "Physician Certification Statement:\n" ++ phys ++ "\n\n" ++
  "Please generate " ++ toString cnt ++
    " well-formed care-coordination notes as a nurse, each ~3 minutes " ++
  "(about 100–150 words). For each note, output:\n" ++
  "NoteTitle: <concise title>\n" ++
  "NoteText: <narrative>\n\n" ++
  "Separate notes with two blank lines.\n"

/-- Python `s.split(":", 1)[1]`: the part after the first colon, or `none`
standing for the `IndexError` raised when the string has no colon. -/
def splitOnceColon (s : String) : Option String :=
  match splitChar ':' s with
  | [] => none
  | [_] => none
  | _ :: rest => some (String.intercalate ":" rest)

/-- The block parser of `generate_notes` in
`validate_cpo_with_groupname.py`: for each `"\n\n"`-separated block that
(stripped) starts with `"NoteTitle:"`, take the part after the colon on the
first line as title and on the second line (if present) as text.
`splitlines` is modelled by splitting on `"\n"`.  A kept line without a
colon raises `IndexError` (`.error`). -/
def parseNotesAux : List String → Except String (List Note)
  | [] => .ok []
  | block :: rest =>
    if pyStartsWith (pyStrip block) "NoteTitle:" then
      let lines := splitChar '\n' block
      match splitOnceColon (lines.headD "") with
      | none => .error "IndexError"
      | some t1 =>
        match lines.get? 1 with
        | none =>
          (parseNotesAux rest).map (fun tail => (pyStrip t1, "") :: tail)
        | some l1 =>
          match splitOnceColon l1 with
          | none => .error "IndexError"
          | some t2 =>
            (parseNotesAux rest).map (fun tail => (pyStrip t1, pyStrip t2) :: tail)
    else parseNotesAux rest

/-- Step `raw = res...content.strip()`, then parse its `"\n\n"` blocks. -/
def parseNotes (raw : String) : Except String (List Note) :=
  parseNotesAux (splitNN (pyStrip raw))

/-- Function `generate_notes(icd, phys, cnt)` of `validate_cpo_with_groupname.py`:
`for _ in range(2)` — build the prompt once, call the backend; on
`APITimeoutError` loop again (second call, identical prompt); on
`OpenAIError` return `[]`; after two timeouts return `[]`.  `r1`, `r2` are
the backend's responses to the first and second call; the second component
is the list of prompts actually sent. -/
def generate_notes (icd : List String) (phys : String) (cnt : Nat)
    (r1 r2 : GenResp) : Except String (List Note) × List String :=
  let p := build_gen_prompt icd phys cnt
  match r1 with
  | .ok raw => (parseNotes raw, [p])
  | .apiErr _ => (.ok [], [p])
  | .timeout =>
    match r2 with
    | .ok raw => (parseNotes raw, [p, p])
    | .apiErr _ => (.ok [], [p, p])
    | .timeout => (.ok [], [p, p])

/-- Comprehension `[n.strip() for n in text.split("\n\n") if n.strip()]` — the block
parser of `generate_notes` in `generate_cpo.py`. -/
def parseNotesSimple (raw : String) : List String :=
  ((splitNN (pyStrip raw)).map pyStrip).filter (fun n => n ≠ "")

/-- Function `generate_notes(prompt)` of `generate_cpo.py`: `for attempt in
range(2)` — retry once on `APITimeoutError`, return `[]` on a second
timeout or on `OpenAIError`.  Also returns the number of backend calls. -/
def generate_notes_simple (r1 r2 : GenResp) : List String × Nat :=
  match r1 with
  | .ok raw => (parseNotesSimple raw, 1)
  | .apiErr _ => ([], 1)
  | .timeout =>
    match r2 with
    | .ok raw => (parseNotesSimple raw, 2)
    | .apiErr _ => ([], 2)
    | .timeout => ([], 2)

/-! ### Validation (`validate_note`) -/

/-- Function `validate_note` of `validate_cpo_with_groupname.py`: one backend call,
no retry loop; on success return the stripped verdict, on a backend
failure (`except OpenAIError`) return the error-marker string instead of
raising.  `resp` is the backend's response; the second component is the
number of backend calls made (always 1). -/
def validate_note (resp : Except String String) : String × Nat :=
  (match resp with
   | .ok v => pyStrip v
   | .error e => "❌ Validation error: " ++ e, 1)

/-! ### `random_date` and the acceptance step -/

/-- Function `random_date(start, end)`: `secs = int((end-start).total_seconds())`,
then `random.randint(0, secs)` — which raises `ValueError` when
`secs < 0`, i.e. when `end < start`.  The draw is modelled by `r`, clamped
into `[0, secs]`; every value of that range is reached as `r` varies. -/
def random_date (start «end» : Int) (r : Nat) : Except String Int :=
  let secs := «end» - start
  if secs < 0 then .error "ValueError: empty range for randrange"
  else .ok (start + min (r : Int) secs)

/-- The acceptance step of `main` (`validate_cpo_with_groupname.py`): when
the verdict starts with `"VALID"`, draw the audit timestamp from the
window (`random_date(window_start, window_end)`); otherwise skip.  A
`ValueError` from `random_date` propagates. -/
def acceptStep (windowStart windowEnd : Int) (r : Nat) (verdict : String) :
    Except String (Option Int) :=
  if pyStartsWith verdict "VALID" then
    (random_date windowStart windowEnd r).map some
  else .ok none

/-! ### Minute ledger (`get_existing_cpo_minutes`, both variants) -/

/-- A JSON field value as relevant to `cpOmin`: null/absent, a number, or
a string. -/
inductive JVal where
  | null
  | num (v : Int)
  | str (s : String)
deriving Repr, DecidableEq

/-- Expression `int(n.get("cpOmin") or 0)`: null/absent and falsy values give `0`, a
number passes through, a nonempty string goes through `int(...)` — which
raises `ValueError` unless the string is numeric (modelled by
`String.toInt?`). -/
def pyMinutes : JVal → Except String Int
  | .null => .ok 0
  | .num v => .ok v
  | .str s =>
    if s = "" then .ok 0
    else
      match s.toInt? with
      | some v => .ok v
      | none => .error "ValueError: invalid literal for int()"

/-- A fetched `CCNotes` record, restricted to the fields the ledger reads.
`none` models an absent or `null` timestamp field. -/
structure CCNote where
  updatedOn : Option String
  createdAt : Option String
  cpOmin : JVal
deriving Repr

/-- Selection `ts = n.get("updatedOn") or n.get("createdAt"); if not ts: continue` —
Python `or` also skips past an empty string, and the record is skipped
when the result is falsy. -/
def tsOf (n : CCNote) : Option String :=
  let t :=
    match n.updatedOn with
    | some s => if s = "" then n.createdAt else some s
    | none => n.createdAt
  match t with
  | some s => if s = "" then none else some s
  | none => none

/-- One record's contribution in `generate_cpo.get_existing_cpo_minutes`:
the `fromisoformat` call sits in `try/except ValueError: continue`, so an
unparseable timestamp skips the record; the `int(...)` on `cpOmin` is
outside the `try` and can still raise.  `parseIso` models
`datetime.fromisoformat(ts.rstrip("Z"))`, `none` standing for
`ValueError`. -/
def minuteStepGen (parseIso : String → Option Int) (first last : Int)
    (total : Int) (n : CCNote) : Except String Int :=
  match tsOf n with
  | none => .ok total
  | some ts =>
    match parseIso (rstripZ ts) with
    | none => .ok total
    | some dt =>
      if first ≤ dt ∧ dt ≤ last then (pyMinutes n.cpOmin).map (total + ·)
      else .ok total

/-- Function `get_existing_cpo_minutes` of `generate_cpo.py` (window bounds given:
`first` = first instant of the month, `last` = last day 23:59:59). -/
def get_existing_cpo_minutes_gen (parseIso : String → Option Int)
    (first last : Int) (notes : List CCNote) : Except String Int :=
  notes.foldlM (minuteStepGen parseIso first last) 0

/-- One record's contribution in `validate_cpo.get_existing_cpo_minutes`
(and the identical function of `validate_cpo_with_groupname.py`): no
`try/except` around `fromisoformat`, so an unparseable timestamp raises
`ValueError`. -/
def minuteStepVal (parseIso : String → Option Int) (first last : Int)
    (total : Int) (n : CCNote) : Except String Int :=
  match tsOf n with
  | none => .ok total
  | some ts =>
    match parseIso (rstripZ ts) with
    | none => .error "ValueError: fromisoformat"
    | some dt =>
      if first ≤ dt ∧ dt ≤ last then (pyMinutes n.cpOmin).map (total + ·)
      else .ok total

/-- Function `get_existing_cpo_minutes` of `validate_cpo.py` /
`validate_cpo_with_groupname.py`. -/
def get_existing_cpo_minutes_val (parseIso : String → Option Int)
    (first last : Int) (notes : List CCNote) : Except String Int :=
  notes.foldlM (minuteStepVal parseIso first last) 0

/-- Modelled from the spec: the `creditedMinutes` contribution —
"Missing/non-numeric minute fields count as 0". -/
def specMinutes : JVal → Int
  | .num v => v
  | _ => 0

/-- Modelled from the spec: one record's contribution to
`existingMinutes` — its credited minutes when its timestamp parses and
lies inside the inclusive window, else 0. -/
def specContrib (parseIso : String → Option Int) (first last : Int) (n : CCNote) : Int :=
  match tsOf n with
  | none => 0
  | some ts =>
    match parseIso (rstripZ ts) with
    | none => 0
    | some dt => if first ≤ dt ∧ dt ≤ last then specMinutes n.cpOmin else 0

/-- Modelled from the spec: `existingMinutes` — "sums `creditedMinutes`
over records whose timestamp satisfies `window.start <= ts <= window.end`
(inclusive both ends)", records lacking a parseable timestamp skipped, not
errors. -/
def specExistingMinutes (parseIso : String → Option Int) (first last : Int)
    (notes : List CCNote) : Int :=
  (notes.map (specContrib parseIso first last)).sum

/-- The `cpOmin` field holds a string (the only case where `int(...)` can
raise). -/
def isStrJ : JVal → Bool
  | .str _ => true
  | _ => false

/-- The record's selected timestamp, when present, parses. -/
def tsParses (parseIso : String → Option Int) (n : CCNote) : Bool :=
  match tsOf n with
  | none => true
  | some ts => (parseIso (rstripZ ts)).isSome

/-! ### Certification orders (`find_cert_order` / `find_485_cert_order`) -/

/-- An order, restricted to the fields the resolver reads; `none` models
an absent or `null` field (`o.get(...) or ""`). -/
structure Order where
  daOrderType : Option String
  documentName : Option String
deriving Repr, DecidableEq

/-- Expression `da = (o.get("daOrderType") or "").lower()`. -/
def lowerD (f : Option String) : String := pyLower (f.getD "")

/-- The match test of `find_cert_order`
(`validate_cpo_with_groupname.py` / `validate_cpo.py`):
`da.startswith("485") or "485" in dn or "recert" in da or "recert" in dn`.
Note the `"485"` test on the type field is a *prefix* test. -/
def certPredWG (o : Order) : Bool :=
  let da := lowerD o.daOrderType
  let dn := lowerD o.documentName
  pyStartsWith da "485" || pyIn "485" dn || pyIn "recert" da || pyIn "recert" dn

/-- The match test of `find_485_cert_order` (`generate_cpo.py`):
`da.startswith("485") or "485" in dn` — no `"recert"` test at all. -/
def certPred485 (o : Order) : Bool :=
  let da := lowerD o.daOrderType
  let dn := lowerD o.documentName
  pyStartsWith da "485" || pyIn "485" dn

/-- Function `find_cert_order(orders)`: first matching order, else `None`. -/
def find_cert_order (orders : List Order) : Option Order :=
  orders.find? certPredWG

/-- Function `find_485_cert_order(orders)`: first matching order, else `None`. -/
def find_485_cert_order (orders : List Order) : Option Order :=
  orders.find? certPred485

/-- Modelled from the spec: "a case-insensitive substring match on type or
name (`\x22485\x22` or `\x22recert\x22`)" — substring on *both* fields for
*both* patterns. -/
def specCertPred (o : Order) : Bool :=
  let da := lowerD o.daOrderType
  let dn := lowerD o.documentName
  pyIn "485" da || pyIn "485" dn || pyIn "recert" da || pyIn "recert" dn

/-! ### Billing windows -/

/-- Modelled from the spec: `clip(certStart, certEnd, monthStart,
monthEnd) -> (max(certStart, monthStart), min(certEnd, monthEnd))`. -/
def clipSpec (certStart certEnd monthStart monthEnd : Int) : Int × Int :=
  (max certStart monthStart, min certEnd monthEnd)

/-- The window of `validate_cpo.main`:
`window_start = max(soc, datetime(year, month, 1))`,
`window_end = min(ep_end, month_end)`. -/
def windowVal (soc epEnd monthStart monthEnd : Int) : Int × Int :=
  (max soc monthStart, min epEnd monthEnd)

/-- The window of `validate_cpo_with_groupname.main`:
`window_start = soc` (NOT clipped to the month start),
`window_end = min(epe, month_end)`. -/
def windowWG (soc epe monthEnd : Int) : Int × Int :=
  (soc, min epe monthEnd)

/-! ### `post_note` and dry-run mode -/

/-- Constant `DRY_RUN = True` (`validate_cpo_with_groupname.py`, line 27). -/
def DRY_RUN : Bool := true

/-- The JSON body `post_note` would send, field for field. -/
structure PostBody where
  patientId : String
  startOfCare : String
  startOfEpisode : String
  endOfEpisode : String
  noteType : String
  noteTitle : String
  noteText : String
  cpOmin : Int
  sentToPhysicianDate : String
  sentToPhysicianStatus : Bool
deriving Repr, DecidableEq

/-- Function `post_note(...)`: `if DRY_RUN: return True` — no HTTP call at all;
otherwise POST the body and return `status < 300`.  The second component
is the list of POST requests issued; `status` is the record store's
response status to a POST, were one issued. -/
def post_note (dryRun : Bool) (pid soc eps epe noteType title text sendDate : String)
    (status : Nat) : Bool × List PostBody :=
  if dryRun then (true, [])
  else (decide (status < 300),
    [⟨pid, soc, eps, epe, noteType, title, text, 3, sendDate, false⟩])



/-! ### Helper lemmas -/

theorem pyLower_append (a b : String) : pyLower (a ++ b) = pyLower a ++ pyLower b :=
  congrArg String.mk (List.map_append _ _ _)

theorem pyLower_intercalate_go (s : String) : ∀ (l : List String) (acc : String),
    pyLower (String.intercalate.go acc s l) =
      String.intercalate.go (pyLower acc) (pyLower s) (l.map pyLower)
  | [], _ => rfl
  | a :: as, acc => by
    simp only [String.intercalate.go, List.map]
    rw [pyLower_intercalate_go s as (acc ++ s ++ a), pyLower_append, pyLower_append]

theorem pyLower_intercalate (s : String) (l : List String) :
    pyLower (String.intercalate s l) = String.intercalate (pyLower s) (l.map pyLower) := by
  cases l with
  | nil => rfl
  | cons a as =>
    simp only [String.intercalate, List.map]
    exact pyLower_intercalate_go s as a

theorem dedupe_seen_subset : ∀ (g : List Note) (st : DedupState),
    st.seenTitles ⊆ (dedupe g st).2.seenTitles ∧ st.seenSnips ⊆ (dedupe g st).2.seenSnips
  | [], st => by simp [dedupe]
  | c :: rest, st => by
    by_cases hd : isDuplicate c st
    · simpa [dedupe, hd] using dedupe_seen_subset rest st
    · have h1 := dedupe_seen_subset rest (recordNote c st)
      simp only [dedupe, if_neg hd]
      exact ⟨fun x hx => h1.1 (List.mem_cons_of_mem _ hx),
             fun x hx => h1.2 (List.mem_cons_of_mem _ hx)⟩

theorem dedupe_nil_of_all_dup : ∀ (g : List Note) (st : DedupState),
    (∀ c ∈ g, isDuplicate c st) → (dedupe g st).1 = []
  | [], _, _ => rfl
  | c :: rest, st, h => by
    have hc : isDuplicate c st := h c (by simp)
    simp only [dedupe, if_pos hc]
    exact dedupe_nil_of_all_dup rest st (fun d hd => h d (by simp [hd]))

theorem dedupe_keys_mem : ∀ (g : List Note) (st : DedupState) (k : String),
    (k ∈ (dedupe g st).2.seenTitles ↔
      k ∈ st.seenTitles ∨ ∃ c ∈ (dedupe g st).1, titleKey c.1 = k) ∧
    (k ∈ (dedupe g st).2.seenSnips ↔
      k ∈ st.seenSnips ∨ ∃ c ∈ (dedupe g st).1, snipKey c.2 = k)
  | [], st, k => by simp [dedupe]
  | c :: rest, st, k => by
    by_cases hd : isDuplicate c st
    · simpa [dedupe, hd] using dedupe_keys_mem rest st k
    · have ih := dedupe_keys_mem rest (recordNote c st) k
      simp only [dedupe, if_neg hd]
      constructor
      · rw [ih.1]
        simp only [recordNote, List.mem_cons]
        constructor
        · rintro (⟨h | h⟩ | ⟨d, hd1, hd2⟩)
          · exact Or.inr ⟨c, Or.inl rfl, h.symm⟩
          · exact Or.inl h
          · exact Or.inr ⟨d, Or.inr hd1, hd2⟩
        · rintro (h | ⟨d, (rfl | hd1), hd2⟩)
          · exact Or.inl (Or.inr h)
          · exact Or.inl (Or.inl hd2.symm)
          · exact Or.inr ⟨d, hd1, hd2⟩
      · rw [ih.2]
        simp only [recordNote, List.mem_cons]
        constructor
        · rintro (⟨h | h⟩ | ⟨d, hd1, hd2⟩)
          · exact Or.inr ⟨c, Or.inl rfl, h.symm⟩
          · exact Or.inl h
          · exact Or.inr ⟨d, Or.inr hd1, hd2⟩
        · rintro (h | ⟨d, (rfl | hd1), hd2⟩)
          · exact Or.inl (Or.inr h)
          · exact Or.inl (Or.inl hd2.symm)
          · exact Or.inr ⟨d, hd1, hd2⟩

/-! ### Claim statements (as written in the spec) and their verdicts -/

/-- Modelled from the spec: title normalization — "lowercase,
whitespace-collapsed title". -/
def specNormTitle (t : String) : String :=
  pyLower (String.intercalate " " (pysplitWs t))

/-- Claim C3 as stated: both workflows use the clipped intersection
`(max(certStart, monthStart), min(certEnd, monthEnd))`. -/
def claimC3BothClip : Prop :=
  (∀ soc epEnd mS mE : Int, windowVal soc epEnd mS mE = clipSpec soc epEnd mS mE) ∧
  (∀ soc epe mS mE : Int, windowWG soc epe mE = clipSpec soc epe mS mE)

/-- C3 fails on the code: `validate_cpo_with_groupname.main` uses
`window_start = soc` without clipping it to the month start (cert start 0,
month window [100, 150], episode end 200: the code window starts at 0, the
clipped intersection at 100). -/
theorem C3_counterexample : ¬ claimC3BothClip := by
  intro h
  have h2 := h.2 0 200 100 150
  simp only [windowWG, clipSpec, Prod.ext_iff] at h2
  omega

/-- C3 (amended): `validate_cpo.main` computes exactly the clipped
intersection `(max(soc, monthStart), min(epEnd, monthEnd))`; the window of
`validate_cpo_with_groupname.main` instead starts at the raw
`startOfCare` and agrees with the clipped intersection exactly when
`monthStart ≤ soc`. -/
theorem C3_window_clip :
    (∀ soc epEnd mS mE : Int, windowVal soc epEnd mS mE = clipSpec soc epEnd mS mE) ∧
    (∀ soc epe mS mE : Int, windowWG soc epe mE = clipSpec soc epe mS mE ↔ mS ≤ soc) := by
  refine ⟨fun _ _ _ _ => rfl, fun soc epe mS mE => ⟨fun h => ?_, fun h => ?_⟩⟩
  · have h1 : soc = max soc mS := congrArg Prod.fst h
    exact (le_max_right soc mS).trans h1.symm.le
  · show (soc, min epe mE) = (max soc mS, min epe mE)
    rw [max_eq_left h]

/-- C4: the code contradicts the claim.  With certification
`startOfCare = 2025-05-01` (modelled as second 10368000 of 2025),
`episodeEndDate = 2025-07-01` (15638400) and month "March 2025" (month end
2025-03-31 23:59:59 = 7775999), the episode and the month do not overlap:
the window of `validate_cpo_with_groupname.main` is
`(10368000, 7775999)` with `start > end`, and accepting any `VALID`
candidate calls `random_date`, whose `random.randint(0, secs)` raises
`ValueError` on the negative range instead of treating the window as an
empty, non-exceptional outcome. -/
theorem C4_empty_window_raises :
    (windowWG 10368000 15638400 7775999).1 > (windowWG 10368000 15638400 7775999).2 ∧
    (∀ r : Nat, random_date 10368000 7775999 r =
      .error "ValueError: empty range for randrange") ∧
    (∀ r : Nat, acceptStep 10368000 7775999 r "VALID" =
      .error "ValueError: empty range for randrange") := by
  exact ⟨by decide, fun r => rfl, fun r => rfl⟩

/-- Claim C6 as stated: both resolvers return the first order matching a
case-insensitive *substring* test for "485" or "recert" on type or name. -/
def claimC6SubstringBoth : Prop :=
  (∀ orders : List Order, find_cert_order orders = orders.find? specCertPred) ∧
  (∀ orders : List Order, find_485_cert_order orders = orders.find? specCertPred)

/-- C6 fails on the code: for an order with `daOrderType = "x485"` and
empty `documentName`, the substring predicate of the spec matches, but
`find_cert_order` tests `"485"` on the type field with `startswith` (and
`find_485_cert_order` does too, besides having no "recert" test), so both
return `None`. -/
theorem C6_counterexample : ¬ claimC6SubstringBoth := by
  intro h
  exact absurd (h.1 [⟨some "x485", some ""⟩]) (by decide)

/-- C6 (amended): `find_cert_order` returns the first order whose
lowercased `daOrderType` *starts with* "485", or whose lowercased
`documentName` contains "485", or either field contains "recert";
`find_485_cert_order` uses only the two "485" tests.  Earlier-listed
orders win, `None` when no order matches, and every match of the
485-only resolver is also a match of the full one. -/
theorem C6_first_match :
    (∀ orders : List Order, (∀ o ∈ orders, certPredWG o = false) →
       find_cert_order orders = none) ∧
    (∀ (l1 l2 : List Order) (o : Order), (∀ x ∈ l1, certPredWG x = false) →
       certPredWG o = true → find_cert_order (l1 ++ o :: l2) = some o) ∧
    (∀ (orders : List Order) (o : Order), find_cert_order orders = some o →
       o ∈ orders ∧ certPredWG o = true) ∧
    (∀ o : Order, certPred485 o = true → certPredWG o = true) := by
  refine ⟨fun orders h => List.find?_eq_none.mpr (fun x hx => by simp [h x hx]),
          fun l1 l2 o h1 h2 => ?_,
          fun orders o h => ⟨List.mem_of_find?_eq_some h, List.find?_some h⟩,
          fun o h => ?_⟩
  · induction l1 with
    | nil => simp [find_cert_order, List.find?, h2]
    | cons x xs ih =>
      have hx : certPredWG x = false := h1 x (by simp)
      simp only [find_cert_order, List.cons_append, List.find?, hx]
      exact ih (fun y hy => h1 y (by simp [hy]))
  · simp only [certPred485, certPredWG, Bool.or_eq_true] at h ⊢
    tauto

/-- Witness for C6: a non-matching order yields `None`; with a matching
order appended after it, the first match is returned. -/
theorem C6_first_match_witness :
    find_cert_order [⟨some "nursing visit", some "progress note"⟩] = none ∧
    find_cert_order [⟨some "nursing visit", some "progress note"⟩,
      ⟨some "485 Cert", none⟩, ⟨none, some "Recert Plan"⟩] = some ⟨some "485 Cert", none⟩ ∧
    certPredWG ⟨some "485 Cert", none⟩ = true := by
  have h := C6_first_match
  have h2 := h.2.1 [⟨some "nursing visit", some "progress note"⟩]
    [⟨none, some "Recert Plan"⟩] ⟨some "485 Cert", none⟩ (by decide) (by decide)
  exact ⟨h.1 _ (by decide), h2, by decide⟩

/-- C8 (confirmed): `generate_notes` retries exactly once with the
identical prompt on a timeout (the prompt list sent to the backend is
`[p, p]` with `p = build_gen_prompt icd phys cnt`), and returns an empty
sequence — a value, not an exception — on a second timeout or on any
non-timeout backend failure; likewise the `generate_cpo.py` variant (with
its backend call count). -/
theorem C8_generation_retry :
    (∀ (icd : List String) (phys : String) (cnt : Nat) (raw : String) (r2 : GenResp),
       generate_notes icd phys cnt (.ok raw) r2 =
         (parseNotes raw, [build_gen_prompt icd phys cnt])) ∧
    (∀ (icd : List String) (phys : String) (cnt : Nat) (e : String) (r2 : GenResp),
       generate_notes icd phys cnt (.apiErr e) r2 =
         (.ok [], [build_gen_prompt icd phys cnt])) ∧
    (∀ (icd : List String) (phys : String) (cnt : Nat) (raw : String),
       generate_notes icd phys cnt .timeout (.ok raw) =
         (parseNotes raw, [build_gen_prompt icd phys cnt, build_gen_prompt icd phys cnt])) ∧
    (∀ (icd : List String) (phys : String) (cnt : Nat) (e : String),
       generate_notes icd phys cnt .timeout (.apiErr e) =
         (.ok [], [build_gen_prompt icd phys cnt, build_gen_prompt icd phys cnt])) ∧
    (∀ (icd : List String) (phys : String) (cnt : Nat),
       generate_notes icd phys cnt .timeout .timeout =
         (.ok [], [build_gen_prompt icd phys cnt, build_gen_prompt icd phys cnt])) ∧
    (∀ (raw : String) (r2 : GenResp),
       generate_notes_simple (.ok raw) r2 = (parseNotesSimple raw, 1)) ∧
    (∀ (e : String) (r2 : GenResp), generate_notes_simple (.apiErr e) r2 = ([], 1)) ∧
    (∀ raw : String, generate_notes_simple .timeout (.ok raw) = (parseNotesSimple raw, 2)) ∧
    (∀ e : String, generate_notes_simple .timeout (.apiErr e) = ([], 2)) ∧
    generate_notes_simple .timeout .timeout = ([], 2) :=
  ⟨fun _ _ _ _ _ => rfl, fun _ _ _ _ _ => rfl, fun _ _ _ _ => rfl, fun _ _ _ _ => rfl,
   fun _ _ _ => rfl, fun _ _ => rfl, fun _ _ => rfl, fun _ => rfl, fun _ => rfl, rfl⟩

/-- Claim C9 as stated: dedup is idempotent and insensitive to case *and
whitespace* in both keys — in particular two entries whose
whitespace-collapsed lowercase titles agree are duplicates of each
other. -/
def claimC9Normalization : Prop :=
  (∀ (c : Note) (st : DedupState), isDuplicate c (recordNote c st)) ∧
  (∀ (c1 c2 : Note) (st : DedupState),
     specNormTitle c1.1 = specNormTitle c2.1 ∨ snipKey c1.2 = snipKey c2.2 →
     isDuplicate c2 (recordNote c1 st))

/-- C9 fails on the code: the title key is `title.lower()` with no
whitespace collapsing, so "Wound Care" and "Wound  Care" (double space) —
equal after the spec's normalization — produce different keys, and with
texts whose snippet keys differ the second entry is not flagged as a
duplicate of the first. -/
theorem C9_counterexample : ¬ claimC9Normalization := by
  intro h
  exact absurd
    (h.2 ("Wound Care", "alpha") ("Wound  Care", "beta") ⟨[], []⟩ (Or.inl (by decide)))
    (by decide)

/-- C9 (amended): dedup is idempotent (`record` then `isDuplicate` on the
same entry is true); entries whose *lowercased* titles agree, or whose
snippet keys agree, are mutual duplicates; and the snippet key is
insensitive to case and whitespace (it depends only on the lowercased
whitespace tokens of the text).  Title comparison, however, is only
case-insensitive, not whitespace-insensitive. -/
theorem C9_dedup_idempotent :
    (∀ (c : Note) (st : DedupState), isDuplicate c (recordNote c st)) ∧
    (∀ (c1 c2 : Note) (st : DedupState),
       titleKey c2.1 = titleKey c1.1 ∨ snipKey c2.2 = snipKey c1.2 →
       isDuplicate c2 (recordNote c1 st)) ∧
    (∀ tx1 tx2 : String,
       (pysplitWs tx1).map pyLower = (pysplitWs tx2).map pyLower →
       snipKey tx1 = snipKey tx2) := by
  refine ⟨fun c st => Or.inl (List.mem_cons_self _ _),
          fun c1 c2 st h => ?_, fun tx1 tx2 h => ?_⟩
  · rcases h with h | h
    · exact Or.inl (by rw [h]; exact List.mem_cons_self _ _)
    · exact Or.inr (by rw [h]; exact List.mem_cons_self _ _)
  · have hsp : pyLower " " = " " := by decide
    calc snipKey tx1
        = String.intercalate " " (((pysplitWs tx1).map pyLower).take 10) := by
          rw [snipKey, pyLower_intercalate, hsp, List.map_take]
      _ = String.intercalate " " (((pysplitWs tx2).map pyLower).take 10) := by rw [h]
      _ = snipKey tx2 := by rw [snipKey, pyLower_intercalate, hsp, List.map_take]

/-- Witness for C9: idempotency, case-insensitive title collision and a
case/whitespace-insensitive snippet collision at concrete entries. -/
theorem C9_dedup_idempotent_witness :
    isDuplicate ("Wound Care", "alpha beta") (recordNote ("Wound Care", "alpha beta") ⟨[], []⟩) ∧
    isDuplicate ("WOUND CARE", "gamma") (recordNote ("wound care", "delta") ⟨[], []⟩) ∧
    snipKey "Alpha  Beta gamma" = snipKey "ALPHA beta GAMMA" := by
  have h := C9_dedup_idempotent
  exact ⟨h.1 _ _, h.2.1 _ _ _ (Or.inl (by decide)), h.2.2 _ _ (by decide)⟩

/-- C10 (confirmed): `DRY_RUN` is `True` by default and `post_note` in
dry-run mode returns success immediately without issuing any POST to the
record store, for every input and any would-be response status. -/
theorem C10_dry_run_no_post :
    DRY_RUN = true ∧
    ∀ (pid soc eps epe noteType title text sendDate : String) (status : Nat),
      post_note DRY_RUN pid soc eps epe noteType title text sendDate status = (true, []) :=
  ⟨rfl, fun _ _ _ _ _ _ _ _ _ => rfl⟩

/-! ### C1 — loop progress and termination -/

/-- Claim C1 as stated: an iteration that accepts zero valid unique
candidates always exits the loop rather than re-looping — i.e. in any run
every iteration except the last accepts at least one candidate. -/
def claimC1ZeroAcceptExits : Prop :=
  ∀ (gen : Nat → Nat → List Note) (val : Note → String) (existing : Int)
    (fuel : Nat) (st : DedupState) (i : Nat),
    i + 1 < (runTrace gen val existing fuel 0 0 st).length →
    0 < (runTrace gen val existing fuel 0 0 st).getD i 0

/-- A generator producing one fresh candidate in each of the first two
iterations, then nothing. -/
def genC1 : Nat → Nat → List Note := fun k _ =>
  if k = 0 then [("Note A", "alpha text")]
  else if k = 1 then [("Note B", "beta text")] else []

/-- A validator that rejects every candidate. -/
def valReject : Note → String := fun _ => "INVALID: not relevant"

/-- C1 fails on the code: with `genC1` and a validator that rejects
everything, the first iteration accepts zero candidates (its unique
candidate is judged INVALID) yet the loop runs a second generation
iteration instead of exiting — the accepted-count trace is `[0, 0]`.  An
all-rejected iteration re-loops; only empty or all-duplicate generation
exits. -/
theorem C1_counterexample : ¬ claimC1ZeroAcceptExits := by
  intro h
  exact absurd (h genC1 valReject 0 5 ⟨[], []⟩ 0 (by decide)) (by decide)

/-- Generalized termination lemma: once every generator response is empty
or consists only of candidates already seen in the initial identity sets,
the loop reaches a terminal state — each iteration only ever grows the
seen sets, so from iteration `N` on the `gen_notes`-empty or
no-unique-notes exit must fire. -/
theorem runLoop_isSome_of_exhausted
    (gen : Nat → Nat → List Note) (val : Note → String) (existing : Int)
    (st0 : DedupState) (N : Nat)
    (hg : ∀ n b, N ≤ n → gen n b = [] ∨ ∀ c ∈ gen n b, isDuplicate c st0) :
    ∀ (fuel k created : Nat) (st : DedupState),
      st0.seenTitles ⊆ st.seenTitles → st0.seenSnips ⊆ st.seenSnips →
      N < k + (fuel + 1) →
      (runLoop gen val existing (fuel + 1) k created st).isSome := by
  intro fuel
  induction fuel with
  | zero =>
    intro k created st hsubT hsubS hk
    have hkN : N ≤ k := by omega
    simp only [runLoop]
    by_cases h30 : 30 ≤ existing + (created : Int) * 3
    · simp [h30]
    · simp only [if_neg h30]
      rcases hg k (min 3 (neededNotes existing created)) hkN with hge | hdup
      · simp [iterStep, hge]
      · rcases hge : gen k (min 3 (neededNotes existing created)) with _ | ⟨c, g⟩
        · simp [iterStep, hge]
        · have hnil : (dedupe (c :: g) st).1 = [] := by
            apply dedupe_nil_of_all_dup
            intro d hd
            rcases hdup d (hge ▸ hd) with h | h
            · exact Or.inl (hsubT h)
            · exact Or.inr (hsubS h)
          simp [iterStep, hge, hnil]
  | succ fuel ih =>
    intro k created st hsubT hsubS hk
    simp only [runLoop]
    by_cases h30 : 30 ≤ existing + (created : Int) * 3
    · simp [h30]
    · simp only [if_neg h30]
      rcases hstep : iterStep val (neededNotes existing created)
          (gen k (min 3 (neededNotes existing created))) st with _ | _ | ⟨acc, st2⟩
      · simp
      · simp
      · simp only [Option.isSome_some]
        have hst2 : st2 = (dedupe (gen k (min 3 (neededNotes existing created))) st).2 := by
          simp only [iterStep] at hstep
          by_cases hge : (gen k (min 3 (neededNotes existing created))).isEmpty
          · simp [hge] at hstep
          · simp only [if_neg hge] at hstep
            by_cases hu : (dedupe (gen k (min 3 (neededNotes existing created))) st).1.isEmpty
            · simp [hu] at hstep
            · simp only [if_neg hu] at hstep
              cases hstep
              rfl
        have hsub := dedupe_seen_subset (gen k (min 3 (neededNotes existing created))) st
        exact ih (k + 1) (created + acc.length) st2
          (hst2 ▸ hsubT.trans hsub.1) (hst2 ▸ hsubS.trans hsub.2) (by omega)

/-- C1 (amended): an iteration that accepts zero candidates does NOT
always exit — if it had unique candidates that were all rejected by
validation it re-loops (recording their dedup keys).  What holds is: the
loop exits exactly on reaching the threshold, on an empty generation, or
on an all-duplicate batch; hence for any generator output that from some
iteration `N` on is empty or consists only of candidates whose keys are
already in the initial identity sets, the loop reaches a terminal state
within `N + 1` iterations. -/
theorem C1_loop_terminates
    (gen : Nat → Nat → List Note) (val : Note → String) (existing : Int)
    (st0 : DedupState) (N fuel : Nat)
    (hg : ∀ n b, N ≤ n → gen n b = [] ∨ ∀ c ∈ gen n b, isDuplicate c st0)
    (hf : N < fuel) :
    (runLoop gen val existing fuel 0 0 st0).isSome := by
  obtain ⟨m, rfl⟩ : ∃ m, fuel = m + 1 := ⟨fuel - 1, by omega⟩
  exact runLoop_isSome_of_exhausted gen val existing st0 N hg m 0 0 st0
    (List.Subset.refl _) (List.Subset.refl _) (by omega)

/-- Witness for C1: a generator that immediately returns nothing gives a
terminal outcome with one unit of fuel. -/
theorem C1_loop_terminates_witness :
    (runLoop (fun _ _ => []) valReject 0 1 0 0 ⟨[], []⟩).isSome :=
  C1_loop_terminates (fun _ _ => []) valReject 0 ⟨[], []⟩ 0 1
    (fun _ _ _ => Or.inl rfl) (by decide)

/-! ### C2 — dedup recording happens before validation -/

/-- Inversion of a `progress` outcome. -/
theorem iterStep_progress_inv {val : Note → String} {needed : Nat}
    {g : List Note} {st : DedupState} {acc : List Note} {st2 : DedupState}
    (h : iterStep val needed g st = .progress acc st2) :
    acc = acceptedOf val needed (dedupe g st).1 ∧ st2 = (dedupe g st).2 := by
  simp only [iterStep] at h
  by_cases hge : g.isEmpty
  · simp [hge] at h
  · simp only [if_neg hge] at h
    by_cases hu : (dedupe g st).1.isEmpty
    · simp [hu] at h
    · simp only [if_neg hu] at h
      cases h
      exact ⟨rfl, rfl⟩

/-- Claim C2 as stated: the identity sets are updated only for entries
that are ultimately accepted — a candidate whose verdict is not VALID
leaves no trace, so its key is in the post-iteration state only if it was
there before. -/
def claimC2RejectedNotRecorded : Prop :=
  ∀ (val : Note → String) (needed : Nat) (g : List Note) (st : DedupState)
    (acc : List Note) (st2 : DedupState),
    iterStep val needed g st = .progress acc st2 →
    ∀ c ∈ g, pyStartsWith (val c) "VALID" = false →
      c ∉ acc ∧ (titleKey c.1 ∈ st2.seenTitles → titleKey c.1 ∈ st.seenTitles)

/-- A generator producing the same candidate in the first two iterations. -/
def genC2 : Nat → Nat → List Note := fun k _ =>
  if k ≤ 1 then [("Care Plan Review", "called physician about medication changes")] else []

/-- C2 fails on the code: `seen_titles`/`seen_snips` are updated during
the dedup pass, before validation.  With an all-rejecting validator the
single generated candidate is not accepted, yet its normalized title key
sits in the post-iteration identity set (starting from empty sets); and
when the identical candidate is generated again in the next iteration it
is filtered as a duplicate, so the run exits with `exhaustedNoUnique`. -/
theorem C2_counterexample :
    ¬ claimC2RejectedNotRecorded ∧
    runLoop genC2 valReject 0 5 0 0 ⟨[], []⟩ = some (0, .exhaustedNoUnique) := by
  constructor
  · intro h
    have h2 := h valReject 1 [("Care Plan Review", "called physician about medication changes")]
      ⟨[], []⟩ [] ⟨["care plan review"], ["called physician about medication changes"]⟩
      (by decide) ("Care Plan Review", "called physician about medication changes")
      (by decide) (by decide)
    exact absurd (h2.2 (by decide)) (by decide)
  · decide

/-- C2 (amended): `record` is performed at dedup time for every unique
*generated* candidate, independently of the validator: after the dedup
pass the identity sets hold exactly the previously seen keys plus the keys
of the dedup survivors, and every survivor — accepted or later rejected —
is a duplicate with respect to the post-pass state. -/
theorem C2_dedup_records_generated :
    (∀ (g : List Note) (st : DedupState) (k : String),
       (k ∈ (dedupe g st).2.seenTitles ↔
         k ∈ st.seenTitles ∨ ∃ c ∈ (dedupe g st).1, titleKey c.1 = k) ∧
       (k ∈ (dedupe g st).2.seenSnips ↔
         k ∈ st.seenSnips ∨ ∃ c ∈ (dedupe g st).1, snipKey c.2 = k)) ∧
    (∀ (g : List Note) (st : DedupState), ∀ c ∈ (dedupe g st).1,
       isDuplicate c (dedupe g st).2) :=
  ⟨dedupe_keys_mem, fun g st c hc =>
    Or.inl ((dedupe_keys_mem g st (titleKey c.1)).1.mpr (Or.inr ⟨c, hc, rfl⟩))⟩

/-- Witness for C2: the single unique candidate of a batch is a duplicate
with respect to the post-dedup state. -/
theorem C2_dedup_records_generated_witness :
    isDuplicate ("Care Plan Review", "called physician")
      (dedupe [("Care Plan Review", "called physician")] ⟨[], []⟩).2 :=
  C2_dedup_records_generated.2 [("Care Plan Review", "called physician")] ⟨[], []⟩
    ("Care Plan Review", "called physician") (by decide)

/-! ### C7 — validation is fail-closed, never retried -/

/-- Claim C7 as stated: `validate_note` soft-fails to an error-marker
string, and a candidate whose verdict does not start with "VALID" is not
accepted, not recorded, and leaves `acceptedMinutes` unchanged. -/
def claimC7FailClosed : Prop :=
  (∀ e : String, (validate_note (.error e)).1 = "❌ Validation error: " ++ e) ∧
  (∀ (val : Note → String) (needed : Nat) (g : List Note) (st : DedupState)
     (acc : List Note) (st2 : DedupState),
     iterStep val needed g st = .progress acc st2 →
     ∀ c ∈ g, pyStartsWith (val c) "VALID" = false →
       c ∉ acc ∧ (titleKey c.1 ∈ st2.seenTitles → titleKey c.1 ∈ st.seenTitles))

/-- C7 fails on the code in its "not recorded" part: a candidate rejected
by validation is not accepted and contributes no minutes, but its dedup
keys were already inserted during the dedup pass, so it *is* recorded
(here: the rejected candidate's title key is in the post-iteration state
though the iteration started from empty identity sets). -/
theorem C7_counterexample : ¬ claimC7FailClosed := by
  intro h
  have h2 := h.2 valReject 1
    [("Medication Reconciliation", "reviewed the current medication list")] ⟨[], []⟩
    [] ⟨["medication reconciliation"], ["reviewed the current medication list"]⟩
    (by decide) ("Medication Reconciliation", "reviewed the current medication list")
    (by decide) (by decide)
  exact absurd (h2.2 (by decide)) (by decide)

/-- C7 (amended): validation is single-shot (exactly one backend call per
candidate), a backend failure yields the error-marker string as a value,
acceptance is decided solely by whether the verdict starts with "VALID"
(for candidates within the `unique[:needed]` slice), and when every
verdict is non-VALID the loop's accepted count never increases — but the
rejected candidate's dedup keys, inserted at dedup time, remain. -/
theorem C7_fail_closed :
    (∀ resp : Except String String, (validate_note resp).2 = 1) ∧
    (∀ e : String, (validate_note (.error e)).1 = "❌ Validation error: " ++ e) ∧
    (∀ (val : Note → String) (needed : Nat) (uniq : List Note) (c : Note),
       c ∈ uniq.take needed →
       (pyStartsWith (val c) "VALID" = true ↔ c ∈ acceptedOf val needed uniq)) ∧
    (∀ (gen : Nat → Nat → List Note) (val : Note → String) (existing : Int)
       (fuel k created : Nat) (st : DedupState) (res : Nat) (ex : LoopExit),
       (∀ c, pyStartsWith (val c) "VALID" = false) →
       runLoop gen val existing fuel k created st = some (res, ex) → res = created) := by
  refine ⟨fun _ => rfl, fun _ => rfl, fun val needed uniq c hc => ?_, ?_⟩
  · simp [acceptedOf, List.mem_filter, hc]
  · intro gen val existing fuel
    induction fuel with
    | zero => intro k created st res ex _ h; simp [runLoop] at h
    | succ fuel ih =>
      intro k created st res ex hval h
      simp only [runLoop] at h
      by_cases h30 : 30 ≤ existing + (created : Int) * 3
      · simp only [if_pos h30, Option.some.injEq, Prod.mk.injEq] at h
        exact h.1.symm
      · simp only [if_neg h30] at h
        rcases hstep : iterStep val (neededNotes existing created)
            (gen k (min 3 (neededNotes existing created))) st with _ | _ | ⟨acc, st2⟩ <;>
          rw [hstep] at h
        · simp only [Option.some.injEq, Prod.mk.injEq] at h
          exact h.1.symm
        · simp only [Option.some.injEq, Prod.mk.injEq] at h
          exact h.1.symm
        · have hacc : acc = [] := by
            rw [(iterStep_progress_inv hstep).1]
            exact List.filter_eq_nil_iff.mpr (fun a _ => by simp [hval a])
          have := ih (k + 1) (created + acc.length) st2 res ex hval h
          rw [hacc] at this
          simpa using this

/-- Witness for C7: the error marker for a concrete backend failure, the
acceptance test at a concrete VALID verdict, and an all-rejected run whose
accepted count stays 0. -/
theorem C7_fail_closed_witness :
    (validate_note (.error "connection reset")).1 = "❌ Validation error: connection reset" ∧
    (pyStartsWith (valReject ("N", "t")) "VALID" = true ↔
      ("N", "t") ∈ acceptedOf valReject 1 [("N", "t")]) ∧
    (0 : Nat) = 0 := by
  have h := C7_fail_closed
  exact ⟨h.2.1 "connection reset",
         h.2.2.1 valReject 1 [("N", "t")] ("N", "t") (by decide),
         h.2.2.2 genC2 valReject 0 5 0 0 ⟨[], []⟩ 0 .exhaustedNoUnique
           (fun c => rfl) (by decide)⟩

/-! ### C5 — the ledger sum -/

theorem minuteStepGen_ok (parseIso : String → Option Int) (first last t : Int)
    (n : CCNote) (hn : isStrJ n.cpOmin = false) :
    minuteStepGen parseIso first last t n = .ok (t + specContrib parseIso first last n) := by
  have hmin : pyMinutes n.cpOmin = .ok (specMinutes n.cpOmin) := by
    cases h : n.cpOmin with
    | null => rfl
    | num v => rfl
    | str s => rw [h] at hn; simp [isStrJ] at hn
  unfold minuteStepGen specContrib
  cases hts : tsOf n with
  | none => simp
  | some ts =>
    cases hp : parseIso (rstripZ ts) with
    | none => simp [hp]
    | some dt =>
      by_cases hw : first ≤ dt ∧ dt ≤ last
      · simp [hp, hw, hmin, Except.map]
      · simp [hp, hw]

theorem minuteStepVal_ok (parseIso : String → Option Int) (first last t : Int)
    (n : CCNote) (hn : isStrJ n.cpOmin = false) (hts : tsParses parseIso n = true) :
    minuteStepVal parseIso first last t n = .ok (t + specContrib parseIso first last n) := by
  have hmin : pyMinutes n.cpOmin = .ok (specMinutes n.cpOmin) := by
    cases h : n.cpOmin with
    | null => rfl
    | num v => rfl
    | str s => rw [h] at hn; simp [isStrJ] at hn
  unfold minuteStepVal specContrib
  cases hts2 : tsOf n with
  | none => simp
  | some ts =>
    cases hp : parseIso (rstripZ ts) with
    | none =>
      exfalso
      simp [tsParses, hts2, hp] at hts
    | some dt =>
      by_cases hw : first ≤ dt ∧ dt ≤ last
      · simp [hp, hw, hmin, Except.map]
      · simp [hp, hw]

theorem ledger_gen_sum (parseIso : String → Option Int) (first last : Int) :
    ∀ (notes : List CCNote) (t : Int),
      (∀ n ∈ notes, isStrJ n.cpOmin = false) →
      notes.foldlM (minuteStepGen parseIso first last) t =
        .ok (t + specExistingMinutes parseIso first last notes)
  | [], t, _ => by simp [specExistingMinutes, pure, Except.pure]
  | n :: rest, t, h => by
    have h1 := minuteStepGen_ok parseIso first last t n (h n (by simp))
    have h2 := ledger_gen_sum parseIso first last rest
      (t + specContrib parseIso first last n) (fun m hm => h m (by simp [hm]))
    rw [List.foldlM_cons, h1]
    show rest.foldlM (minuteStepGen parseIso first last)
      (t + specContrib parseIso first last n) = _
    rw [h2]
    simp [specExistingMinutes, add_assoc]

theorem ledger_val_sum (parseIso : String → Option Int) (first last : Int) :
    ∀ (notes : List CCNote) (t : Int),
      (∀ n ∈ notes, isStrJ n.cpOmin = false) →
      (∀ n ∈ notes, tsParses parseIso n = true) →
      notes.foldlM (minuteStepVal parseIso first last) t =
        .ok (t + specExistingMinutes parseIso first last notes)
  | [], t, _, _ => by simp [specExistingMinutes, pure, Except.pure]
  | n :: rest, t, h, hp => by
    have h1 := minuteStepVal_ok parseIso first last t n (h n (by simp)) (hp n (by simp))
    have h2 := ledger_val_sum parseIso first last rest
      (t + specContrib parseIso first last n)
      (fun m hm => h m (by simp [hm])) (fun m hm => hp m (by simp [hm]))
    rw [List.foldlM_cons, h1]
    show rest.foldlM (minuteStepVal parseIso first last)
      (t + specContrib parseIso first last n) = _
    rw [h2]
    simp [specExistingMinutes, add_assoc]

/-- Claim C5 as stated: both ledger variants return exactly the spec's
inclusive-window sum for *every* record list — in particular records with
unparseable timestamps are skipped without error. -/
def claimC5LedgerSkips : Prop :=
  ∀ (parseIso : String → Option Int) (first last : Int) (notes : List CCNote),
    get_existing_cpo_minutes_gen parseIso first last notes =
      .ok (specExistingMinutes parseIso first last notes) ∧
    get_existing_cpo_minutes_val parseIso first last notes =
      .ok (specExistingMinutes parseIso first last notes)

/-- C5 fails on the code: only `generate_cpo.py` wraps `fromisoformat` in
`try/except ValueError`; the `validate_cpo.py` variant raises on a record
whose timestamp does not parse (here: one record with timestamp
`"not a date"` under a parser that rejects it — the spec sum is 0, the
gen variant returns `.ok 0`, the val variant raises). -/
theorem C5_counterexample : ¬ claimC5LedgerSkips := by
  intro h
  have h2 := (h (fun _ => none) 0 100 [⟨some "not a date", none, .null⟩]).2
  rw [show get_existing_cpo_minutes_val (fun _ => none) 0 100
        [⟨some "not a date", none, .null⟩] =
      Except.error "ValueError: fromisoformat" from rfl] at h2
  exact Except.noConfusion h2

/-- C5 (amended): whenever every record's minutes field is null/absent or
numeric (a non-numeric string would make Python's `int(...)` raise in both
variants), `generate_cpo`'s ledger returns exactly the spec's
inclusive-window sum — with unparseable timestamps skipped and null
minutes counting 0; the `validate_cpo` variant returns the same sum
provided additionally every present timestamp parses (otherwise it raises
`ValueError` instead of skipping). -/
theorem C5_ledger_sum (parseIso : String → Option Int) (first last : Int)
    (notes : List CCNote) (hmin : ∀ n ∈ notes, isStrJ n.cpOmin = false) :
    get_existing_cpo_minutes_gen parseIso first last notes =
      .ok (specExistingMinutes parseIso first last notes) ∧
    ((∀ n ∈ notes, tsParses parseIso n = true) →
      get_existing_cpo_minutes_val parseIso first last notes =
        .ok (specExistingMinutes parseIso first last notes)) := by
  constructor
  · have h := ledger_gen_sum parseIso first last notes 0 hmin
    rw [get_existing_cpo_minutes_gen, h, zero_add]
  · intro hts
    have h := ledger_val_sum parseIso first last notes 0 hmin hts
    rw [get_existing_cpo_minutes_val, h, zero_add]

/-- The timestamp parser of the C5 witness run. -/
def parseIsoW : String → Option Int := fun s =>
  if s = "2025-06-05T10:00:00" then some 5
  else if s = "2025-06-30T23:59:59" then some 50
  else if s = "2025-07-01T00:00:00" then some 51 else none

/-- The fetched records of the C5 witness run. -/
def notesW : List CCNote :=
  [⟨some "2025-06-05T10:00:00", none, .num 12⟩,
   ⟨none, some "2025-06-30T23:59:59", .num 7⟩,
   ⟨some "2025-07-01T00:00:00", none, .num 100⟩,
   ⟨none, none, .num 99⟩,
   ⟨some "2025-06-05T10:00:00", none, .null⟩]

/-- Witness for C5 over the window `[0, 50]`: the in-window records
contribute 12 and 7 (the latter timestamped exactly at the inclusive
window end), the record one second past the end contributes nothing, the
record with no timestamp is skipped, and a null minutes field counts 0 —
total 19 from both variants. -/
theorem C5_ledger_sum_witness :
    get_existing_cpo_minutes_gen parseIsoW 0 50 notesW = .ok 19 ∧
    get_existing_cpo_minutes_val parseIsoW 0 50 notesW = .ok 19 := by
  have h := C5_ledger_sum parseIsoW 0 50 notesW (by decide)
  have hspec : specExistingMinutes parseIsoW 0 50 notesW = 19 := by decide
  exact ⟨by rw [h.1, hspec], by rw [h.2 (by decide), hspec]⟩
